import Mathlib

/-!
Verification of the flopy `ModflowDis` (discretization package) and
`ModflowWel` (well package) input-deck readers/writers, shallowly embedded
from `src/flopy/modflow/mfdis.py` and `src/flopy/modflow/mfwel.py`.

Conventions of the embedding:
* Python ints are modelled as `ℤ` (or `ℕ` where the source value is a count
  that is always non-negative); Python floats carrying grid data are modelled
  as `ℚ` (the claims under study are about exact array contents, and the only
  rounding the source performs is through its text formats, modelled
  explicitly below).
* A Python procedure that mutates `self` is modelled as a function from an
  explicit state to a new state; a procedure that can raise becomes a
  function into `Except`/`Option`, with one error constructor per distinct
  exception the source can raise.
-/

/-! ### Node/index conversion (mfdis.py, `get_lrc` lines 238-261 and
`get_node` lines 263-279)

`get_lrc` converts a 1-based flat node number to a 1-based
(layer, row, column) triple.  The loop body for one node is (Python 2
integer division; all quantities are positive in the supported range, so
`ℕ` division coincides with Python's floor division):

    nrc = nrow * ncol
    k = int(node / nrc)
    if (k * nrc) < node: k += 1
    ij = int(node - (k - 1) * nrc)
    i = int(ij / ncol)
    if (i * ncol) < ij: i += 1
    j = ij - (i - 1) * ncol
-/

def get_lrc_one (nrow ncol node : ℕ) : ℕ × ℕ × ℕ :=
  let nrc := nrow * ncol
  let k0 := node / nrc
  let k := if k0 * nrc < node then k0 + 1 else k0
  let ij := node - (k - 1) * nrc
  let i0 := ij / ncol
  let i := if i0 * ncol < ij then i0 + 1 else i0
  let j := ij - (i - 1) * ncol
  (k, i, j)

/-- `ModflowDis.get_lrc` on a list argument: maps the loop body over the
input list and returns the list of triples. -/
def get_lrc (nrow ncol : ℕ) (nodes : List ℕ) : List (ℕ × ℕ × ℕ) :=
  nodes.map (get_lrc_one nrow ncol)

/-- Loop body of `ModflowDis.get_node`:
`node = ((k - 1) * nrc) + ((i - 1) * ncol) + j`. -/
def get_node_one (nrow ncol : ℕ) (kij : ℕ × ℕ × ℕ) : ℕ :=
  (kij.1 - 1) * (nrow * ncol) + (kij.2.1 - 1) * ncol + kij.2.2

/-- `ModflowDis.get_node` on a list argument. -/
def get_node (nrow ncol : ℕ) (lrc_list : List (ℕ × ℕ × ℕ)) : List ℕ :=
  lrc_list.map (get_node_one nrow ncol)

/-! ### Constructor handling of `laycbd` (mfdis.py lines 125-127)

    self.laycbd = Util2d(model, (self.nlay,), np.int, laycbd, name='laycbd')
    self.laycbd[-1] = 0  # bottom layer must be zero

`Util2d` itself is not part of the sources under study. -/

/-- Modelled from the spec: the `Util2d` constructor used at mfdis.py line
125 broadcasts a scalar to a full array of the declared 1-D shape, accepts
an array whose length matches the declared shape unchanged, and fails with a
ShapeError otherwise ("broadcast scalars to full arrays", "constructing with
inconsistent array lengths fails with a ShapeError", spec section 4.1). -/
def util2dBroadcast (nlay : ℕ) (arg : ℤ ⊕ List ℤ) : Option (List ℤ) :=
  match arg with
  | Sum.inl v => some (List.replicate nlay v)
  | Sum.inr l => if l.length = nlay then some l else none

/-- The constructor's treatment of `laycbd`: build the length-`nlay` array
(`Util2d`, broadcasting a scalar if necessary), then force the last entry to
zero (`self.laycbd[-1] = 0`; Python index `-1` is index `nlay - 1`). -/
def buildLaycbd (nlay : ℕ) (arg : ℤ ⊕ List ℤ) : Option (List ℤ) :=
  (util2dBroadcast nlay arg).map (fun l => l.set (nlay - 1) 0)

/-! ### Grid geometry, thickness, cell volumes, thickness check
(mfdis.py lines 166-199 and 392-411, 456-522)

The geometry is modelled without quasi-3D confining beds (`laycbd` all
zero), so the thickness array has exactly `nlay` sheets; `thickness`
follows `__calculate_thickness` (lines 392-399):
`thk[0] = top - botm[0]`, `thk[k] = botm[k-1] - botm[k]`. -/

structure DisGeom where
  nlay : ℕ
  nrow : ℕ
  ncol : ℕ
  delr : ℕ → ℚ
  delc : ℕ → ℚ
  top : ℕ → ℕ → ℚ
  botm : ℕ → ℕ → ℕ → ℚ

/-- Layer thickness, from `__calculate_thickness`. -/
def thickness (g : DisGeom) (l r c : ℕ) : ℚ :=
  if l = 0 then g.top r c - g.botm 0 r c
  else g.botm (l - 1) r c - g.botm l r c

/-- `ModflowDis.get_cell_volumes` (lines 173-189).  The source allocates
`vol = np.empty((nlay, nrow, ncol))` — an UNINITIALIZED buffer, modelled
here by the explicit argument `vol0` for the buffer's prior contents — and
then multiplies in place: `vol[l,:,:] *= thickness[l]`,
`vol[:,r,:] *= delc[r]`, `vol[:,:,c] *= delr[c]`.  Each cell `(l,r,c)` with
`l < nlay`, `r < nrow`, `c < ncol` is hit exactly once by each of the three
loop families, so the returned entry is the product below. -/
def get_cell_volumes (g : DisGeom) (vol0 : ℕ → ℕ → ℕ → ℚ) (l r c : ℕ) : ℚ :=
  vol0 l r c * thickness g l r c * g.delc r * g.delr c

/-- All (layer, row, column) index triples of the grid, row-major. -/
def gridCells (g : DisGeom) : List (ℕ × ℕ × ℕ) :=
  (List.range g.nlay).flatMap fun l =>
    (List.range g.nrow).flatMap fun r =>
      (List.range g.ncol).map fun c => (l, r, c)

/-- The working array `d` of `ModflowDis.check` (lines 494-497):
`inactive = self.parent.bas6.ibound.array == 0`, `d = self.thickness.array`,
`d[inactive] = 1.` — i.e. cells flagged inactive in the external `ibound`
mask are overwritten with 1 before the thickness test. -/
def checkMasked (g : DisGeom) (ibound : ℕ → ℕ → ℕ → ℤ) (l r c : ℕ) : ℚ :=
  if ibound l r c = 0 then 1 else thickness g l r c

/-- The error flag of `ModflowDis.check`: `d.min() <= 0` over all cells
(line 498). -/
def disCheckErrors (g : DisGeom) (ibound : ℕ → ℕ → ℕ → ℤ) : Bool :=
  (gridCells g).any fun t =>
    decide (checkMasked g ibound t.1 t.2.1 t.2.2 ≤ 0)

/-- The offending-cell list of `ModflowDis.check`:
`idx = np.column_stack(np.where(d <= 0.))` (line 502). -/
def disCheckOffending (g : DisGeom) (ibound : ℕ → ℕ → ℕ → ℤ) :
    List (ℕ × ℕ × ℕ) :=
  (gridCells g).filter fun t =>
    decide (checkMasked g ibound t.1 t.2.1 t.2.2 ≤ 0)

/-- A 1×1×1 geometry with unit spacings, top 1 and bottom 0 (thickness 1
everywhere); the concrete scenario of spec section 8. -/
def unitGeom : DisGeom :=
  ⟨1, 1, 1, fun _ => 1, fun _ => 1, fun _ _ => 1, fun _ _ _ => 0⟩

/-! ### Time/length unit resolution (mfdis.py lines 17-18 and 145-152)

    ITMUNI = {"u":0,"s":1,"m":2,"h":3,"d":4,"y":5}
    LENUNI = {"u":0,"f":1,"m":2,"c":3}
    try: self.itmuni = int(itmuni)
    except: self.itmuni = ITMUNI[itmuni.lower()[0]]

and the same pattern for `lenuni`. -/

def ITMUNI : List (Char × ℤ) :=
  [('u', 0), ('s', 1), ('m', 2), ('h', 3), ('d', 4), ('y', 5)]

def LENUNI : List (Char × ℤ) :=
  [('u', 0), ('f', 1), ('m', 2), ('c', 3)]

/-- Accumulate a decimal digit list into a natural number. -/
def digitsToNat (cs : List Char) : ℕ :=
  cs.foldl (fun a c => a * 10 + (c.toNat - 48)) 0

/-- Python's `int(s)` on a string: an optional single sign followed by a
non-empty run of decimal digits parses; anything else raises `ValueError`
(modelled as `none`).  Surrounding whitespace never occurs at the call
sites modelled here (all arguments are `split()` tokens or user-supplied
unit strings), so it is not modelled. -/
def pyIntStr (s : String) : Option ℤ :=
  match s.toList with
  | [] => none
  | c :: rest =>
    let ds := if c = '-' ∨ c = '+' then rest else c :: rest
    if ds ≠ [] ∧ ds.all Char.isDigit then
      some ((if c = '-' then (-1 : ℤ) else 1) * (digitsToNat ds : ℤ))
    else none

inductive UnitLookupErr where
  | keyError : Char → UnitLookupErr
  | indexError : UnitLookupErr
deriving DecidableEq, Repr

/-- The `try: int(u) except: TABLE[u.lower()[0]]` pattern of the
constructor, for an argument that is either already an int or a string.
`u.lower()[0]` on the empty string raises `IndexError`; a first character
(lowercased) missing from the table raises `KeyError`. -/
def unitCode (table : List (Char × ℤ)) (arg : ℤ ⊕ String) : Except UnitLookupErr ℤ :=
  match arg with
  | Sum.inl i => Except.ok i
  | Sum.inr s =>
    match pyIntStr s with
    | some i => Except.ok i
    | none =>
      match s.toList with
      | [] => Except.error UnitLookupErr.indexError
      | c :: _ =>
        match table.lookup c.toLower with
        | some v => Except.ok v
        | none => Except.error (UnitLookupErr.keyError c.toLower)

/-- Resolution of the `itmuni` constructor argument (lines 145-148). -/
def itmuniOf : ℤ ⊕ String → Except UnitLookupErr ℤ := unitCode ITMUNI

/-- Resolution of the `lenuni` constructor argument (lines 149-152). -/
def lenuniOf : ℤ ⊕ String → Except UnitLookupErr ℤ := unitCode LENUNI

/-- The recognized time-unit names of the spec's enumeration
("{undefined, seconds/feet, minutes/meters, hours/centimeters, days,
years}", spec section 3). -/
def timeUnitNames : List String :=
  ["undefined", "seconds", "minutes", "hours", "days", "years"]

/-! ### Well-package stress-period reading (mfwel.py, `ModflowWel.load`
lines 272-327)

The per-period loop keeps a running list `current`:

    if itmp == 0:
        current = []
    elif itmp > 0:
        for ibnd in xrange(itmp):     # read itmp record lines
            ... bnd = [int(t[0])-1, int(t[1])-1, int(t[2])-1, float(t[3])]
            current.append(bnd)       # NOTE: appends, never clears
    stress_period_data[iper] = np.array(current)   # snapshot

Records are modelled as already-tokenized `(layer, row, column, flux)`
quadruples (the per-line `int`/`float` parses of well-formed files);
auxiliary variables are not modelled (`naux = 0`, so `nitems = 4`) — they
do not interact with the `itmp` control flow. -/

/-- One record line converted to zero-based indices
(`bnd.append(int(t[jdx]) - 1)` for the first three items). -/
def welBnd (t : ℤ × ℤ × ℤ × ℚ) : ℤ × ℤ × ℤ × ℚ :=
  (t.1 - 1, t.2.1 - 1, t.2.2.1 - 1, t.2.2.2)

/-- One stress period of the well file: the `itmp` tag and the record
lines following it in the file. -/
structure WelPeriod where
  itmp : ℤ
  recLines : List (ℤ × ℤ × ℤ × ℚ)
deriving DecidableEq, Repr

/-- The effect of one period's `itmp` tag on the running `current` list:
`itmp == 0` clears it, `itmp > 0` APPENDS the `itmp` records read from the
file (the source never resets `current` in this branch), and `itmp < 0`
leaves it untouched. -/
def welPeriodStep (current : List (ℤ × ℤ × ℤ × ℚ)) (p : WelPeriod) :
    List (ℤ × ℤ × ℤ × ℚ) :=
  if p.itmp = 0 then []
  else if 0 < p.itmp then current ++ (p.recLines.take p.itmp.toNat).map welBnd
  else current

/-- The whole per-period loop: the list of per-period snapshots
`stress_period_data[0], stress_period_data[1], ...` produced from an
initial `current` list (the source starts from `current = []`). -/
def welPeriodLists (current : List (ℤ × ℤ × ℤ × ℚ)) :
    List WelPeriod → List (List (ℤ × ℤ × ℤ × ℚ))
  | [] => []
  | p :: rest =>
    let c := welPeriodStep current p
    c :: welPeriodLists c rest

/-! ### `ModflowWel.load` control flow (mfwel.py lines 171-335)

The function can never return normally:

* `npwel` is assigned only inside the `if "parameter" in line.lower():`
  branch (line 220); the later guard `if npwel > 0:` (line 266) reads it
  unconditionally, so a file without a PARAMETER line raises `NameError`
  there, before any stress period is read.
* When a PARAMETER line is present, the loop completes and the final
  construction (lines 329 and 333) passes
  `layer_row_column_data=layer_row_column_data`; the name
  `layer_row_column_data` is never assigned anywhere in the function (the
  only mention, line 326, is commented out), so evaluating the argument
  raises `NameError`.  (Were it defined, `ModflowWel.__init__` lines 94-96
  accept no `layer_row_column_data` or `naux` keyword either.)

The input is modelled as an already-tokenized well file; files whose
tokens fail `int`/`float` parsing raise even earlier and are not modelled
separately. -/

inductive WelLoadErr where
  | npwelNameError
  | lrcdNameError
deriving DecidableEq, Repr

/-- An already-tokenized well file: the optional PARAMETER line's two
numeric fields, the dataset-2a fields, the optional SPECIFY block and the
per-period data. -/
structure WelFileTok where
  paramLine : Option (ℤ × ℤ)
  mxactw : ℤ
  iwelcbTok : Option ℤ
  optionToks : List String
  specify : Bool
  nper : ℕ
  periods : List WelPeriod

/-- `ModflowWel.load`.  The dataset-2a fields are bound as in the source
(`iwelcb = 53` when a nonzero second token is present, else `0`), the
per-period loop runs when reachable, and the two unbound-name reads
documented above decide the outcome of every call. -/
def welLoad (f : WelFileTok) : Except WelLoadErr (ℤ × List (List (ℤ × ℤ × ℤ × ℚ))) :=
  let iwelcb : ℤ :=
    match f.iwelcbTok with
    | some v => if v ≠ 0 then 53 else 0
    | none => 0
  match f.paramLine with
  | none =>
    -- line 266: `if npwel > 0:` with `npwel` never assigned
    Except.error WelLoadErr.npwelNameError
  | some _ =>
    let data := welPeriodLists [] (f.periods.take f.nper)
    -- lines 329/333: `layer_row_column_data` is an unbound name
    let _ := (iwelcb, data)
    Except.error WelLoadErr.lrcdNameError

/-! ### Legacy configuration ingestion (mfdis.py, `read_from_cnf`
lines 281-365)

The body is one `try: ... finally: ...`.  The `try` part reads the
dimension line (`cnf_nlay = int(s[0])`, `cnf_nrow = int(s[1])`,
`cnf_ncol = int(s[2])`) and then the array blocks.  The `finally` block
ALWAYS runs and executes, in order:

    self.nlay = cnf_nlay
    self.nrow = cnf_nrow
    self.ncol = cnf_ncol
    self.delr = Util2d(model, ...)   # `model` is an unbound name

If the `try` part failed before binding one of the `cnf_*` dimension
locals, the corresponding assignment raises `UnboundLocalError` (the
assignments before it have already taken effect).  Otherwise all three
dimension assignments succeed and the `Util2d(model, ...)` call raises
`NameError` (`model` is neither a parameter nor a global of mfdis.py), so
none of the array fields (`delr`, `delc`, `top`, `botm`) is ever updated
and the method always returns exceptionally, replacing any `try`-part
exception.  Consequently the observable behaviour depends only on how much
of the dimension line parsed. -/

inductive CnfErr where
  | unboundLocal
  | nameError
deriving DecidableEq, Repr

inductive CnfOutcome where
  | normal
  | exception : CnfErr → CnfOutcome
deriving DecidableEq, Repr

/-- The mutable fields of the geometry that `read_from_cnf` touches. -/
structure DisState where
  nlay : ℤ
  nrow : ℤ
  ncol : ℤ
  delr : List ℚ
  delc : List ℚ
  top : List ℚ
  botm : List ℚ
deriving DecidableEq, Repr

/-- Helper for `pySplit`: walk the character list, accumulating the
current token (in reverse) and emitting it at each space. -/
def splitToksAux : List Char → List Char → List String
  | [], acc => if acc.isEmpty then [] else [String.mk acc.reverse]
  | ch :: rest, acc =>
    if ch = ' ' then
      if acc.isEmpty then splitToksAux rest []
      else String.mk acc.reverse :: splitToksAux rest []
    else splitToksAux rest (ch :: acc)

/-- Python's `line.split()` on a line (whitespace-separated tokens, empty
tokens dropped; the modelled files separate tokens with spaces). -/
def pySplit (s : String) : List String :=
  splitToksAux s.toList []

/-- The dimension-line locals `cnf_nlay, cnf_nrow, cnf_ncol` after the
`try` part: `int(s[i])` of the first line's tokens, bound strictly in
order, so a failure (missing token or malformed int) leaves that local and
all later ones unbound.  `readline` on an empty file yields `''`, whose
`split()` is empty. -/
def cnfDims (lines : List String) : Option ℤ × Option ℤ × Option ℤ :=
  let toks := pySplit (lines.headD "")
  let d1 := (toks.get? 0).bind pyIntStr
  let d2 := if d1.isSome then (toks.get? 1).bind pyIntStr else none
  let d3 := if d1.isSome && d2.isSome then (toks.get? 2).bind pyIntStr
    else none
  (d1, d2, d3)

/-- `ModflowDis.read_from_cnf` as a state transformer, per the `finally`
semantics described above: the parsed dimension prefix is written to the
state unconditionally; the outcome is `UnboundLocalError` if the dimension
line did not fully parse, `NameError` (from `Util2d(model, ...)`)
otherwise; the array fields are never changed. -/
def read_from_cnf (σ : DisState) (lines : List String) :
    DisState × CnfOutcome :=
  match cnfDims lines with
  | (some a, some b, some c) =>
    ({ σ with nlay := a, nrow := b, ncol := c },
      CnfOutcome.exception CnfErr.nameError)
  | (some a, some b, none) =>
    ({ σ with nlay := a, nrow := b },
      CnfOutcome.exception CnfErr.unboundLocal)
  | (some a, none, _) =>
    ({ σ with nlay := a }, CnfOutcome.exception CnfErr.unboundLocal)
  | (none, _, _) => (σ, CnfOutcome.exception CnfErr.unboundLocal)

/-! ### Discretization file serialization (mfdis.py, `write_file`
lines 413-454 and `load` lines 524-686)

The file is modelled one level above raw characters, at the granularity at
which `load` consumes it:

* the dataset-1 line carries six integers written with `'{:10d}'` and read
  back with `line.split()` / `int()` — the 10-wide right-justified fields
  keep the six tokens separated, so the line is modelled as the tuple of
  its six integers;
* the dataset-2 line carries the `nlay` `laycbd` flags written with
  `'{:3d}'` (3-wide fields, separated for the 0/1 flag values) and read
  token by token until `nlay` values are collected;
* the `delr`/`delc`/`top`/`botm` blocks are written by
  `Util2d.get_file_entry()` and read by `Util2d.load`/`Util3d.load`, which
  are not part of the sources under study.  Modelled from the spec: a
  block written from an array is read back as exactly the same values when
  the requested shape matches ("array block, see Util2d format", spec
  section 6; round-trip contract, spec section 4.1), so a block is
  modelled as its list of rational values plus the shape check performed
  on read;
* each stress-period line is written as
  `'{0:14f}{1:14d}{2:10f} '` plus `' SS'`/`' TR'` (lines 446-453).  The
  `{:14f}`/`{:10f}` formats print exactly six digits after the decimal
  point, so the values that reach the file — and that `float()` recovers
  exactly on `load`, lines 665-678 — are the originals rounded to six
  decimal places, modelled by `round6`.

`load` finally calls the `ModflowDis` constructor (line 681), which forces
the last `laycbd` flag to zero (`mkModflowDis`); the header lines carry
only georeference metadata (`xul`, `yul`, rotation, proj4, start date) and
touch none of the arrays the claim compares, so they are not modelled. -/

/-- Python's `s.upper()` (character-wise uppercasing). -/
def pyUpper (s : String) : String :=
  String.mk (s.toList.map Char.toUpper)

/-- The in-memory discretization data compared by the round-trip claim:
dimensions, unit codes, confining-bed flags, spacings, elevations (`top`
row-major of length `nrow*ncol`, `botm` of length
`(nlay + sum laycbd) * nrow * ncol`) and the four stress-period arrays. -/
structure DisData where
  nlay : ℕ
  nrow : ℕ
  ncol : ℕ
  nper : ℕ
  itmuni : ℤ
  lenuni : ℤ
  laycbd : List ℤ
  delr : List ℚ
  delc : List ℚ
  top : List ℚ
  botm : List ℚ
  perlen : List ℚ
  nstp : List ℤ
  tsmult : List ℚ
  steady : List Bool
deriving DecidableEq, Repr

/-- One stress-period line as it stands in the file: the two formatted
reals (already carrying only six decimal places), the step count and the
`"SS"`/`"TR"` tag. -/
structure DisPeriodLine where
  perlen6 : ℚ
  nstp : ℤ
  tsmult6 : ℚ
  sstr : String
deriving DecidableEq, Repr

/-- The discretization file at token granularity. -/
structure DisFileTok where
  dline : ℕ × ℕ × ℕ × ℕ × ℤ × ℤ
  laycbdToks : List ℤ
  delrBlock : List ℚ
  delcBlock : List ℚ
  topBlock : List ℚ
  botmBlock : List ℚ
  periodLines : List DisPeriodLine
deriving DecidableEq, Repr

/-- Rounding to six digits after the decimal point: the value that
`'{:14f}'.format(x)` / `'{:10f}'.format(x)` puts in the file and `float()`
reads back. -/
def round6 (q : ℚ) : ℚ := ((round (q * 1000000) : ℤ) : ℚ) / 1000000

/-- `ModflowDis.write_file`: dataset 1 from the six scalar fields, dataset
2 from `laycbd[l]` for `l in range(nlay)`, the four array blocks, and one
formatted line per `t in range(nper)` with `'SS'` for a steady period and
`'TR'` otherwise. -/
def dis_write_file (d : DisData) : DisFileTok :=
  { dline := (d.nlay, d.nrow, d.ncol, d.nper, d.itmuni, d.lenuni)
    laycbdToks := d.laycbd.take d.nlay
    delrBlock := d.delr
    delcBlock := d.delc
    topBlock := d.top
    botmBlock := d.botm
    periodLines := (List.range d.nper).map fun t =>
      { perlen6 := round6 (d.perlen.getD t 0)
        nstp := d.nstp.getD t 0
        tsmult6 := round6 (d.tsmult.getD t 0)
        sstr := if d.steady.getD t false then "SS" else "TR" } }

/-- The `ModflowDis` constructor step performed at the end of `load`
(line 681): the arrays are passed through unchanged (their shapes are the
declared ones, so the `Util2d`/`Util3d` validation succeeds) and the last
confining-bed flag is forced to zero (line 127). -/
def mkModflowDis (d : DisData) : DisData :=
  { d with laycbd := d.laycbd.set (d.nlay - 1) 0 }

/-- `ModflowDis.load`: read the six dataset-1 integers, collect `nlay`
`laycbd` tokens (the reading loop needs at least that many), read the four
array blocks at their declared shapes (`delr`: `ncol`, `delc`: `nrow`,
`top`: `nrow*ncol`, `botm`: `nlay + laycbd.sum` sheets when `nlay > 1`,
else `nlay` — lines 651-657), parse `nper` stress-period lines
(`a4.upper() == 'TR'` gives a transient period, anything else steady), and
construct. -/
def dis_load (fl : DisFileTok) : Option DisData :=
  let (nlay, nrow, ncol, nper, itmuni, lenuni) := fl.dline
  let laycbd := fl.laycbdToks.take nlay
  let nbot : ℕ :=
    if 1 < nlay then ((nlay : ℤ) + laycbd.sum).toNat else nlay
  if nlay ≤ fl.laycbdToks.length ∧
      fl.delrBlock.length = ncol ∧
      fl.delcBlock.length = nrow ∧
      fl.topBlock.length = nrow * ncol ∧
      fl.botmBlock.length = nbot * (nrow * ncol) ∧
      nper ≤ fl.periodLines.length then
    let ps := fl.periodLines.take nper
    some (mkModflowDis
      { nlay := nlay, nrow := nrow, ncol := ncol, nper := nper
        itmuni := itmuni, lenuni := lenuni
        laycbd := laycbd
        delr := fl.delrBlock, delc := fl.delcBlock
        top := fl.topBlock, botm := fl.botmBlock
        perlen := ps.map fun p => p.perlen6
        nstp := ps.map fun p => p.nstp
        tsmult := ps.map fun p => p.tsmult6
        steady := ps.map fun p => !(pyUpper p.sstr == "TR") })
  else none

/-- A well-formed one-cell, one-period geometry used as a concrete
round-trip input. -/
def disExample : DisData :=
  { nlay := 1, nrow := 1, ncol := 1, nper := 1, itmuni := 4, lenuni := 2
    laycbd := [0], delr := [1], delc := [1], top := [1], botm := [0]
    perlen := [1], nstp := [1], tsmult := [1], steady := [true] }

/-- `disExample` with the stress-period length `2 ^ (-24)` — a value
exactly representable in float32 (it is a power of two within range) whose
six-decimal rounding is `0`. -/
def disExampleTiny : DisData :=
  { disExample with perlen := [1 / 16777216] }

/-! ### Theorems -/

/-- One-dimensional decomposition fact behind `get_lrc`: with
`q0 = m / d` and `q = q0 + 1` when `q0 * d < m` (else `q0`), the product
`(q - 1) * d` is strictly below `m` whenever `d` and `m` are positive. -/
theorem pyceil_pred_mul_lt (d m : ℕ) (hd : 0 < d) (hm : 0 < m) :
    ((if (m / d) * d < m then m / d + 1 else m / d) - 1) * d < m := by
  by_cases h : (m / d) * d < m
  · simpa [h] using h
  · have hle : (m / d) * d ≤ m := Nat.div_mul_le_self m d
    have hsub : (m / d - 1) * d = (m / d) * d - d := by
      rw [Nat.sub_mul, Nat.one_mul]
    rcases Nat.eq_zero_or_pos (m / d) with h0 | h0
    · simp [h, h0, hm]
    · have hdm : d ≤ (m / d) * d := Nat.le_mul_of_pos_left d h0
      simp only [h, if_false]
      omega

/-- Claim C3: for every grid with positive dimensions and every in-range
1-based node id `n`, `get_node (get_lrc [n]) = [n]`; the flat id and the
1-based (layer, row, column) triple are related by
`node = (layer-1)*nrow*ncol + (row-1)*ncol + column`. -/
theorem get_node_get_lrc_roundtrip (nlay nrow ncol n : ℕ)
    (hlay : 0 < nlay) (hrow : 0 < nrow) (hcol : 0 < ncol)
    (hn : 1 ≤ n) (hub : n ≤ nlay * nrow * ncol) :
    get_node nrow ncol (get_lrc nrow ncol [n]) = [n] := by
  have hnrc : 0 < nrow * ncol := Nat.mul_pos hrow hcol
  have h1 : ((if (n / (nrow * ncol)) * (nrow * ncol) < n
      then n / (nrow * ncol) + 1 else n / (nrow * ncol)) - 1) * (nrow * ncol)
      < n := pyceil_pred_mul_lt (nrow * ncol) n hnrc hn
  simp only [get_node, get_lrc, List.map, get_lrc_one, get_node_one]
  set k := (if (n / (nrow * ncol)) * (nrow * ncol) < n
      then n / (nrow * ncol) + 1 else n / (nrow * ncol)) with hk
  set ij := n - (k - 1) * (nrow * ncol) with hij
  have hijpos : 1 ≤ ij := by omega
  have h2 : ((if (ij / ncol) * ncol < ij
      then ij / ncol + 1 else ij / ncol) - 1) * ncol
      < ij := pyceil_pred_mul_lt ncol ij hcol hijpos
  set i := (if (ij / ncol) * ncol < ij then ij / ncol + 1 else ij / ncol)
    with hi
  simp only [List.cons.injEq, and_true]
  omega

/-- Witness for C3 on the concrete grid `(nlay, nrow, ncol) = (2, 2, 2)` at
node 5. -/
theorem get_node_get_lrc_roundtrip_witness :
    get_node 2 2 (get_lrc 2 2 [5]) = [5] :=
  get_node_get_lrc_roundtrip 2 2 2 5 (by decide) (by decide) (by decide)
    (by decide) (by decide)

/-- Claim C5: whatever `laycbd` argument the constructor is given (scalar or
array), every successfully constructed geometry has the bottom layer's
confining-bed flag equal to zero. -/
theorem laycbd_last_zero (nlay : ℕ) (arg : ℤ ⊕ List ℤ) (out : List ℤ)
    (hpos : 0 < nlay) (h : buildLaycbd nlay arg = some out) :
    out.get? (nlay - 1) = some 0 := by
  rcases arg with v | l
  · simp only [buildLaycbd, util2dBroadcast, Option.map_some',
      Option.some.injEq] at h
    subst h
    have hlt : nlay - 1 < (List.replicate nlay v).length := by
      simp [List.length_replicate]; omega
    rw [List.get?_eq_getElem?, List.getElem?_eq_getElem (by simpa using hlt)]
    simp [List.getElem_set]
  · simp only [buildLaycbd, util2dBroadcast] at h
    by_cases hlen : l.length = nlay
    · simp only [hlen, if_true, Option.map_some', Option.some.injEq] at h
      subst h
      have hlt : nlay - 1 < l.length := by omega
      rw [List.get?_eq_getElem?, List.getElem?_eq_getElem (by simpa using hlt)]
      simp [List.getElem_set]
    · simp [hlen] at h

/-- Witness for C5: a three-layer grid constructed with the scalar flag `7`
ends up with `laycbd = [7, 7, 0]`, whose last entry is zero. -/
theorem laycbd_last_zero_witness :
    ([7, 7, 0] : List ℤ).get? 2 = some 0 :=
  laycbd_last_zero 3 (Sum.inl 7) [7, 7, 0] (by decide) (by decide)

/-- Claim C1: evaluation of the stress-period reading loop at the failing
input.  First conjunct: two consecutive periods with `itmp = 1` each — the
second period's list is the first period's record FOLLOWED BY the new one
(the `itmp > 0` branch appends to the carried-over `current` list and never
replaces it), not just the newly read record as the replace semantics
requires.  Second conjunct: the claim's own example
`[itmp=2 two records, itmp=-1, itmp=0]` behaves as described (period 2
carries period 1's list forward, period 3 is cleared), because period 1
starts from an empty `current`. -/
theorem wel_itmp_append_not_replace :
    welPeriodLists [] [⟨1, [(1, 1, 1, 5)]⟩, ⟨1, [(2, 2, 2, 7)]⟩]
      = [[(0, 0, 0, 5)], [(0, 0, 0, 5), (1, 1, 1, 7)]]
    ∧ welPeriodLists []
        [⟨2, [(1, 1, 1, 5), (1, 2, 2, 8)]⟩, ⟨-1, []⟩, ⟨0, []⟩]
      = [[(0, 0, 0, 5), (0, 1, 1, 8)], [(0, 0, 0, 5), (0, 1, 1, 8)], []] := by
  decide

/-- Claim C2: `get_cell_volumes` multiplies into the uninitialized
`np.empty` buffer, so its output depends on the buffer's prior contents:
on the unit geometry (thickness, spacings all 1, so the claimed volume is
1) a prior buffer content of 0 makes the returned entry 0. -/
theorem get_cell_volumes_uninitialized :
    get_cell_volumes unitGeom (fun _ _ _ => 0) 0 0 0 = 0
    ∧ thickness unitGeom 0 0 0 * unitGeom.delc 0 * unitGeom.delr 0 = 1 := by
  constructor <;> norm_num [get_cell_volumes, thickness, unitGeom]

/-- Claim C9: `ModflowWel.load` never returns normally: a file without a
PARAMETER line dies at the unassigned-`npwel` guard, and a file with one
dies at the unbound `layer_row_column_data` in the final construction. -/
theorem wel_load_never_returns (f : WelFileTok) :
    ∃ e, welLoad f = Except.error e := by
  cases hp : f.paramLine with
  | none => exact ⟨WelLoadErr.npwelNameError, by simp [welLoad, hp]⟩
  | some v => exact ⟨WelLoadErr.lrcdNameError, by simp [welLoad, hp]⟩

/-- Claim C10: `read_from_cnf` never completes normally on any input — the
`finally` block's `Util2d(model, ...)` call references the unbound name
`model` — and the array fields are left untouched (stale) while the
dimension fields may already have been overwritten. -/
theorem read_from_cnf_always_raises (σ : DisState) (lines : List String) :
    (∃ e, (read_from_cnf σ lines).2 = CnfOutcome.exception e)
    ∧ (read_from_cnf σ lines).1.delr = σ.delr
    ∧ (read_from_cnf σ lines).1.delc = σ.delc
    ∧ (read_from_cnf σ lines).1.top = σ.top
    ∧ (read_from_cnf σ lines).1.botm = σ.botm := by
  rcases h : cnfDims lines with ⟨d1, d2, d3⟩
  rcases d1 with _ | a <;> rcases d2 with _ | b <;> rcases d3 with _ | c <;>
    simp [read_from_cnf, h]

/-- Claim C8: whenever the dimension line parses, `read_from_cnf` returns
exceptionally with `nlay`, `nrow`, `ncol` already overwritten by the parsed
values — the dimension assignments in the `finally` block run before the
failing array rebuild. -/
theorem read_from_cnf_dims_assigned (σ : DisState) (lines : List String)
    (a b c : ℤ) (h : cnfDims lines = (some a, some b, some c)) :
    (read_from_cnf σ lines).1.nlay = a
    ∧ (read_from_cnf σ lines).1.nrow = b
    ∧ (read_from_cnf σ lines).1.ncol = c
    ∧ (read_from_cnf σ lines).2 = CnfOutcome.exception CnfErr.nameError := by
  simp [read_from_cnf, h]

/-- Witness for C8: a configuration file whose first line is `"2 3 4"`
(and whose remaining content is malformed) leaves the geometry with
`nlay = 2`, `nrow = 3`, `ncol = 4` on the exceptional return. -/
theorem read_from_cnf_dims_assigned_witness :
    (read_from_cnf ⟨0, 0, 0, [], [], [], []⟩ ["2 3 4", "oops"]).1.nlay = 2
    ∧ (read_from_cnf ⟨0, 0, 0, [], [], [], []⟩ ["2 3 4", "oops"]).1.nrow = 3
    ∧ (read_from_cnf ⟨0, 0, 0, [], [], [], []⟩ ["2 3 4", "oops"]).1.ncol = 4
    ∧ (read_from_cnf ⟨0, 0, 0, [], [], [], []⟩ ["2 3 4", "oops"]).2
      = CnfOutcome.exception CnfErr.nameError :=
  read_from_cnf_dims_assigned ⟨0, 0, 0, [], [], [], []⟩ ["2 3 4", "oops"]
    2 3 4 (by decide)

/-- Membership in the grid cell enumeration is exactly in-bounds. -/
theorem mem_gridCells (g : DisGeom) (l r c : ℕ) :
    (l, r, c) ∈ gridCells g ↔ l < g.nlay ∧ r < g.nrow ∧ c < g.ncol := by
  simp only [gridCells, List.mem_flatMap, List.mem_map, List.mem_range,
    Prod.mk.injEq]
  constructor
  · rintro ⟨a, ha, b, hb, x, hx, rfl, rfl, rfl⟩
    exact ⟨ha, hb, hx⟩
  · rintro ⟨hl, hr, hc⟩
    exact ⟨l, hl, r, hr, c, hc, rfl, rfl, rfl⟩

/-- The masked working value is non-positive exactly at active cells with
non-positive thickness (inactive cells were overwritten with 1). -/
theorem checkMasked_nonpos (g : DisGeom) (ib : ℕ → ℕ → ℕ → ℤ) (l r c : ℕ) :
    checkMasked g ib l r c ≤ 0 ↔ ib l r c ≠ 0 ∧ thickness g l r c ≤ 0 := by
  unfold checkMasked
  by_cases h : ib l r c = 0 <;> simp [h]

/-- Claim C6: the thickness check collects exactly the in-grid cells that
are active (nonzero `ibound`) and have non-positive thickness, and when it
reports pass (no error flagged), every active cell has strictly positive
thickness. -/
theorem dis_check_masks_inactive (g : DisGeom) (ib : ℕ → ℕ → ℕ → ℤ) :
    (∀ l r c, (l, r, c) ∈ disCheckOffending g ib ↔
      l < g.nlay ∧ r < g.nrow ∧ c < g.ncol ∧
        ib l r c ≠ 0 ∧ thickness g l r c ≤ 0)
    ∧ (disCheckErrors g ib = false →
        ∀ l r c, l < g.nlay → r < g.nrow → c < g.ncol → ib l r c ≠ 0 →
          0 < thickness g l r c) := by
  constructor
  · intro l r c
    simp only [disCheckOffending, List.mem_filter, mem_gridCells,
      decide_eq_true_eq, checkMasked_nonpos]
    tauto
  · intro hpass l r c hl hr hc hib
    by_contra hle
    push_neg at hle
    have : disCheckErrors g ib = true := by
      refine List.any_eq_true.mpr ⟨(l, r, c), ?_, ?_⟩
      · exact (mem_gridCells g l r c).mpr ⟨hl, hr, hc⟩
      · simp only [decide_eq_true_eq, checkMasked_nonpos]
        exact ⟨hib, hle⟩
    rw [hpass] at this
    exact Bool.false_ne_true this

/-- Witness for C6: on the all-active unit geometry the check reports pass
and indeed the (only) cell has positive thickness. -/
theorem dis_check_masks_inactive_witness :
    0 < thickness unitGeom 0 0 0 :=
  (dis_check_masks_inactive unitGeom (fun _ _ _ => 1)).2
    (by simp [disCheckErrors, gridCells, checkMasked, thickness, unitGeom])
    0 0 0 (by decide) (by decide) (by decide) (by decide)

/-- Claim C7, counterexample: the string `"strange"` is not convertible to
an integer, is not a recognized time-unit name, and yet the constructor's
unit resolution silently accepts it, mapping it to code 1 ("seconds")
because only its first character is consulted — no lookup error is
raised. -/
theorem itmuni_malformed_silently_accepted :
    pyIntStr "strange" = none
    ∧ "strange" ∉ timeUnitNames
    ∧ itmuniOf (Sum.inr "strange") = Except.ok 1 :=
  ⟨rfl, by decide, rfl⟩

/-- Claim C7, amended: for a unit string that is not convertible to an
integer, resolution fails (with a lookup error) exactly when the string's
FIRST character, lowercased, is not a key of the corresponding table
(`ITMUNI` keys: u, s, m, h, d, y; `LENUNI` keys: u, f, m, c); any
malformed string sharing a first letter with a table key is silently
mapped to that key's code. -/
theorem unit_lookup_first_char (s : String) (c : Char) (rest : List Char)
    (hs : s.toList = c :: rest) (hint : pyIntStr s = none) :
    ((∃ e, itmuniOf (Sum.inr s) = Except.error e) ↔
      ITMUNI.lookup c.toLower = none)
    ∧ ((∃ e, lenuniOf (Sum.inr s) = Except.error e) ↔
      LENUNI.lookup c.toLower = none) := by
  have hsd : s.data = c :: rest := hs
  constructor
  · cases hl : ITMUNI.lookup c.toLower <;>
      simp [itmuniOf, unitCode, hint, hsd, hl]
  · cases hl : LENUNI.lookup c.toLower <;>
      simp [lenuniOf, unitCode, hint, hsd, hl]

/-- Witness for C7's amended statement at the concrete string `"qqq"`:
`'q'` is not a key of either table, so both resolutions raise. -/
theorem unit_lookup_first_char_witness :
    ((∃ e, itmuniOf (Sum.inr "qqq") = Except.error e) ↔
      ITMUNI.lookup 'q'.toLower = none)
    ∧ ((∃ e, lenuniOf (Sum.inr "qqq") = Except.error e) ↔
      LENUNI.lookup 'q'.toLower = none) :=
  unit_lookup_first_char "qqq" 'q' ['q', 'q'] rfl rfl

/-- Setting an entry that is already zero leaves a list unchanged. -/
theorem list_set_getD_zero (l : List ℤ) (i : ℕ) (h : l.getD i 0 = 0) :
    l.set i 0 = l := by
  induction l generalizing i with
  | nil => rfl
  | cons x xs ih =>
    cases i with
    | zero =>
      simp only [List.getD_cons_zero] at h
      simp [h]
    | succ n =>
      have := ih n (by simpa [List.getD_cons_succ] using h)
      simp [List.set, this]

/-- Reading a list back element by element (with any default) reproduces
the list, mapped. -/
theorem range_map_getD {α β : Type} (l : List α) (d0 : α) (f : α → β) :
    ((List.range l.length).map fun t => f (l.getD t d0)) = l.map f := by
  apply List.ext_getElem
  · simp
  · intro i h1 h2
    have hi : i < l.length := by simpa using h2
    simp [List.getElem_map, List.getElem_range, List.getD,
      List.getElem?_eq_getElem hi]

/-- Special case of `range_map_getD`: reading back without transformation. -/
theorem range_getD_self {α : Type} (l : List α) (d0 : α) :
    ((List.range l.length).map fun t => l.getD t d0) = l := by
  have h := range_map_getD l d0 id
  simpa using h

/-- The steady flag survives the `'SS'`/`'TR'` write and the
`a4.upper() == 'TR'` read. -/
theorem ss_tr_roundtrip (b : Bool) :
    (!(pyUpper (if b then "SS" else "TR") == "TR")) = b := by
  cases b <;> rfl
/-- Round-trip core lemma: for a well-formed geometry, loading the written
file reproduces every field except that `perlen` and `tsmult` come back
rounded to six decimal places. -/
theorem dis_roundtrip_core (d : DisData)
    (h1 : d.laycbd.length = d.nlay)
    (h3 : d.laycbd.getD (d.nlay - 1) 0 = 0)
    (h4 : d.delr.length = d.ncol) (h5 : d.delc.length = d.nrow)
    (h6 : d.top.length = d.nrow * d.ncol)
    (h7 : d.botm.length =
      (if 1 < d.nlay then ((d.nlay : ℤ) + d.laycbd.sum).toNat else d.nlay)
        * (d.nrow * d.ncol))
    (h8 : d.perlen.length = d.nper) (h9 : d.nstp.length = d.nper)
    (h10 : d.tsmult.length = d.nper) (h11 : d.steady.length = d.nper) :
    dis_load (dis_write_file d) =
      some { d with perlen := d.perlen.map round6
                    tsmult := d.tsmult.map round6 } := by
  have htake : d.laycbd.take d.nlay = d.laycbd :=
    List.take_of_length_le (le_of_eq h1)
  have hlen : d.nlay ≤ d.laycbd.length := le_of_eq h1.symm
  simp only [dis_load, dis_write_file, htake]
  rw [if_pos]
  · congr 1
    unfold mkModflowDis
    have hps : (((List.range d.nper).map fun t =>
        ({ perlen6 := round6 (d.perlen.getD t 0), nstp := d.nstp.getD t 0,
           tsmult6 := round6 (d.tsmult.getD t 0),
           sstr := if d.steady.getD t false then "SS" else "TR" }
          : DisPeriodLine)).take d.nper)
        = (List.range d.nper).map fun t =>
        ({ perlen6 := round6 (d.perlen.getD t 0), nstp := d.nstp.getD t 0,
           tsmult6 := round6 (d.tsmult.getD t 0),
           sstr := if d.steady.getD t false then "SS" else "TR" }
          : DisPeriodLine) :=
      List.take_of_length_le (by simp)
    simp only [hps, List.map_map, DisData.mk.injEq, true_and, and_true,
      eq_self_iff_true]
    refine ⟨list_set_getD_zero d.laycbd (d.nlay - 1) h3, ?_, ?_, ?_, ?_⟩
    · show ((List.range d.nper).map fun t =>
        round6 (d.perlen.getD t 0)) = d.perlen.map round6
      rw [← h8]
      exact range_map_getD d.perlen 0 round6
    · show ((List.range d.nper).map fun t => d.nstp.getD t 0) = d.nstp
      rw [← h9]
      exact range_getD_self d.nstp 0
    · show ((List.range d.nper).map fun t =>
        round6 (d.tsmult.getD t 0)) = d.tsmult.map round6
      rw [← h10]
      exact range_map_getD d.tsmult 0 round6
    · show ((List.range d.nper).map fun t =>
        !(pyUpper (if d.steady.getD t false then "SS" else "TR") == "TR"))
        = d.steady
      have hpt : (fun t =>
          !(pyUpper (if d.steady.getD t false then "SS" else "TR") == "TR"))
          = fun t => d.steady.getD t false :=
        funext fun t => ss_tr_roundtrip (d.steady.getD t false)
      rw [hpt, ← h11]
      exact range_getD_self d.steady false
  · exact ⟨hlen, h4, h5, h6, h7, by simp⟩

/-- Six-decimal rounding flushes `2 ^ (-24)` to zero. -/
theorem round6_tiny : round6 (1 / 16777216) = 0 := by
  have h : round ((1 / 16777216 : ℚ) * 1000000) = 0 := by
    rw [round_eq]
    norm_num
  rw [round6, h]
  norm_num

/-- Claim C4, counterexample: the geometry `disExampleTiny`, whose only
stress-period length is `2 ^ (-24)` (exactly representable in float32),
does NOT round-trip: `write_file` prints it with six decimal places as
`0.000000`, so the loaded geometry's `perlen` is `[0]`, not the original
`[1/16777216]` — the stress-period array is not recovered, and the
discrepancy is not float32 rounding of a spacing or elevation. -/
theorem dis_roundtrip_not_exact :
    (dis_load (dis_write_file disExampleTiny)).map (fun x => x.perlen)
      = some [0]
    ∧ disExampleTiny.perlen = [1 / 16777216]
    ∧ ([0] : List ℚ) ≠ [1 / 16777216] := by
  have h := dis_roundtrip_core disExampleTiny (by decide) (by decide)
    (by decide) (by decide) (by decide) (by decide) (by decide) (by decide)
    (by decide) (by decide)
  refine ⟨?_, rfl, ?_⟩
  · rw [h]
    simp only [Option.map_some']
    have : disExampleTiny.perlen.map round6 = [0] := by
      show [round6 (1 / 16777216)] = [0]
      rw [round6_tiny]
    simp [this]
  · simp only [ne_eq, List.cons.injEq, and_true]
    norm_num

/-- Claim C4, amended: for a well-formed geometry (array lengths matching
the declared dimensions, bottom confining-bed flag zero as every
constructed geometry has), loading the written file reproduces the
dimensions, unit codes, confining-bed flags, spacings, elevations, step
counts and steady flags exactly; the stress-period reals `perlen` and
`tsmult` are reproduced up to rounding to six decimal places (the
`'{:14f}'`/`'{:10f}'` write formats). -/
theorem dis_roundtrip_six_decimals (d : DisData)
    (h1 : d.laycbd.length = d.nlay)
    (h3 : d.laycbd.getD (d.nlay - 1) 0 = 0)
    (h4 : d.delr.length = d.ncol) (h5 : d.delc.length = d.nrow)
    (h6 : d.top.length = d.nrow * d.ncol)
    (h7 : d.botm.length =
      (if 1 < d.nlay then ((d.nlay : ℤ) + d.laycbd.sum).toNat else d.nlay)
        * (d.nrow * d.ncol))
    (h8 : d.perlen.length = d.nper) (h9 : d.nstp.length = d.nper)
    (h10 : d.tsmult.length = d.nper) (h11 : d.steady.length = d.nper) :
    dis_load (dis_write_file d) =
      some { d with perlen := d.perlen.map round6
                    tsmult := d.tsmult.map round6 } :=
  dis_roundtrip_core d h1 h3 h4 h5 h6 h7 h8 h9 h10 h11

/-- Witness for C4's amended round trip on the concrete well-formed
geometry `disExample` (whose stress-period reals are exactly
representable in six decimal places, so they are reproduced exactly). -/
theorem dis_roundtrip_six_decimals_witness :
    dis_load (dis_write_file disExample) =
      some { disExample with
              perlen := disExample.perlen.map round6
              tsmult := disExample.tsmult.map round6 } :=
  dis_roundtrip_six_decimals disExample (by decide) (by decide) (by decide)
    (by decide) (by decide) (by decide) (by decide) (by decide) (by decide)
    (by decide)
